import Mathlib

/-!
Verification of the kube-arbitrator queue model and arbitration engine.

The queue entity model (`compareResources`, `UsedUnderAllocated`,
`UsedUnderDeserved`, `Clone`) is embedded from
`pkg/schedulercache/queue_info.go`.  Go maps `map[ResourceName]Quantity`
become association lists with zero-default lookup, matching Go's
zero-value semantics for a missing key.  Pointer sharing in `Clone` is
made explicit with a small heap: a `Store` holds the queue objects and
the pod tables, and a `QueueInfo` holds indices into it.

The proportional-share allocation policy and the preemption engine are
not among the sources; they are modelled from the specification and
marked as such in their doc comments.
-/

namespace KubeArbitrator

/-- Resource names, as in `apiv1.ResourceName` (string type). -/
abbrev ResourceName := String

/-- A resource vector `map[apiv1.ResourceName]resource.Quantity` as an
association list; quantities are integers. -/
abbrev ResMap := List (ResourceName × Int)

/-- Go map indexing `res[k]`: the stored quantity, or the zero value
when the key is absent. -/
def lookupQ (res : ResMap) (k : ResourceName) : Int :=
  match res.find? (fun p => p.1 == k) with
  | some p => p.2
  | none => 0

/-- `compareResources` from `queue_info.go`: reads the `cpu` and
`memory` entries of both vectors and returns true iff
`cpu1 <= cpu2 && memory1 <= memory2`. -/
def compareResources (res1 res2 : ResMap) : Bool :=
  let cpu1 := lookupQ res1 "cpu"
  let cpu2 := lookupQ res2 "cpu"
  let memory1 := lookupQ res1 "memory"
  let memory2 := lookupQ res2 "memory"
  if cpu1 ≤ cpu2 ∧ memory1 ≤ memory2 then true else false

/-- The status block of a `Queue` custom resource: the three resource
vectors `Deserved`, `Allocated`, `Used` (each a `ResourceList` whose
`Resources` field is the map). -/
structure QueueStatus where
  deserved : ResMap
  allocated : ResMap
  used : ResMap
  deriving Repr, DecidableEq, Inhabited

/-- The `apiv1.Queue` custom resource: a weight in its spec and the
status block. -/
structure Queue where
  weight : Int
  status : QueueStatus
  deriving Repr, DecidableEq, Inhabited

/-- The pod membership table `map[string]*v1.Pod`; a pod is identified
by an observable value. -/
abbrev PodsMap := List (String × String)

/-- The heap: `QueueInfo` holds pointers (`*apiv1.Queue`, and a Go map
is a reference), so queue objects and pod tables live in a store and a
`QueueInfo` holds indices into it. -/
structure Store where
  queueHeap : Nat → Queue
  podsHeap : Nat → PodsMap
  nQueues : Nat

/-- `QueueInfo` from `queue_info.go`: a name, a pointer to the queue
object, and a reference to the pod table. -/
structure QueueInfo where
  name : String
  queueRef : Nat
  podsRef : Nat
  deriving Repr, DecidableEq

/-- Dereference `r.queue`. -/
def readQueue (σ : Store) (r : QueueInfo) : Queue :=
  σ.queueHeap r.queueRef

/-- Dereference `r.Pods`. -/
def readPods (σ : Store) (r : QueueInfo) : PodsMap :=
  σ.podsHeap r.podsRef

/-- Mutate the queue object at index `i` (as the cache writer does to
the live entry). -/
def writeQueue (σ : Store) (i : Nat) (q : Queue) : Store :=
  { σ with queueHeap := Function.update σ.queueHeap i q }

/-- Mutate the pod table at index `i` (pod add/delete on the live
membership table). -/
def writePods (σ : Store) (i : Nat) (m : PodsMap) : Store :=
  { σ with podsHeap := Function.update σ.podsHeap i m }

/-- `Clone` from `queue_info.go`: the name is copied, the queue object
is deep-copied (`r.queue.DeepCopy()` — a fresh heap cell holding the
same value), and the `Pods` field is assigned the same map reference
(`Pods: r.Pods`). -/
def Clone (σ : Store) (r : QueueInfo) : Store × QueueInfo :=
  ({ σ with
      queueHeap := Function.update σ.queueHeap σ.nQueues (readQueue σ r)
      nQueues := σ.nQueues + 1 },
   { name := r.name, queueRef := σ.nQueues, podsRef := r.podsRef })

/-- `UsedUnderAllocated` from `queue_info.go`. -/
def UsedUnderAllocated (σ : Store) (r : QueueInfo) : Bool :=
  compareResources (readQueue σ r).status.used (readQueue σ r).status.allocated

/-- `UsedUnderDeserved` from `queue_info.go`. -/
def UsedUnderDeserved (σ : Store) (r : QueueInfo) : Bool :=
  compareResources (readQueue σ r).status.used (readQueue σ r).status.deserved

/-! Allocation policy and preemption engine, modelled from the spec. -/

/-- A two-dimensional (cpu, memory) resource quantity, the dimensions
the engine tracks. -/
structure Res where
  cpu : Nat
  mem : Nat
  deriving Repr, DecidableEq, Inhabited

/-- Render a `Res` as the resource map the queue model compares. -/
def resToMap (r : Res) : ResMap :=
  [("cpu", (r.cpu : Int)), ("memory", (r.mem : Int))]

/-- A queue as the arbitration engine sees it: a name, a share weight,
and the resource requests of its running workloads. -/
structure SQueue where
  name : String
  weight : Nat
  pods : List Res
  deriving Repr, DecidableEq

/-- Sum of the weights of the live queues. -/
def sumWeights (qs : List (String × Nat)) : Nat :=
  (qs.map Prod.snd).sum

/-- Modelled from the spec: the proportional-share Allocation Policy
(`pkg/policy/proportion`, not among the sources).  For each resource
dimension independently,
`deserved[q] = floor(totalCapacity[dim] * weight[q] / sum(weight))`. -/
def proportionCompute (qs : List (String × Nat)) (cap : Res) : List (String × Res) :=
  let w := sumWeights qs
  qs.map (fun q => (q.1, ⟨cap.cpu * q.2 / w, cap.mem * q.2 / w⟩))

/-- Total resource request of a list of workloads. -/
def sumRes (l : List Res) : Res :=
  l.foldr (fun a b => ⟨a.cpu + b.cpu, a.mem + b.mem⟩) ⟨0, 0⟩

/-- A usage vector is under a bound iff `compareResources` (from
`queue_info.go`) accepts the corresponding resource maps. -/
def underB (a b : Res) : Bool :=
  compareResources (resToMap a) (resToMap b)

/-- Modelled from the spec: greedy victim selection of the Preemption
Engine (`pkg/policy/preemption`, not among the sources).  While the
queue's usage is not under its deserved share and candidates remain,
evict one workload, subtract its request, and re-check.  Returns the
surviving workloads and the number of evictions. -/
def evictLoop (deserved used : Res) (pods : List Res) : List Res × Nat :=
  if underB used deserved then (pods, 0)
  else
    match pods with
    | [] => ([], 0)
    | p :: rest =>
      let r := evictLoop deserved ⟨used.cpu - p.cpu, used.mem - p.mem⟩ rest
      (r.1, r.2 + 1)

/-- Modelled from the spec: one reconciliation pass.  Deserved shares
come from the proportional policy over the live weights; every queue
whose usage is not under its deserved share has workloads evicted until
it is.  Returns, per queue, (name, evicted count, surviving count). -/
def reconcilePreemption (cap : Res) (qs : List SQueue) : List (String × Nat × Nat) :=
  let w := sumWeights (qs.map (fun q => (q.name, q.weight)))
  qs.map (fun q =>
    let deserved : Res := ⟨cap.cpu * q.weight / w, cap.mem * q.weight / w⟩
    let r := evictLoop deserved (sumRes q.pods) q.pods
    (q.name, r.2, r.1.length))

/-! Error handling for quota / CRD creation. -/

/-- Control-plane errors as the creation paths distinguish them. -/
inductive K8sError where
  | alreadyExists
  | other (code : Nat)
  deriving Repr, DecidableEq

/-- `apierrors.IsAlreadyExists`. -/
def IsAlreadyExists : K8sError → Bool
  | .alreadyExists => true
  | .other _ => false

/-- The CRD-creation error check in `prepareCRD` and
`prepareCRDForPreemption`: after `client.CreateQueueCRD`, fail only
when `err != nil && !apierrors.IsAlreadyExists(err)`; otherwise
processing continues. -/
def crdCreateStep (err : Option K8sError) : Except String Unit :=
  match err with
  | some e =>
    if !(IsAlreadyExists e) then .error "fail to create crd"
    else .ok ()
  | none => .ok ()

/-- Modelled from the spec: the Controller's quota-object creation
(`pkg/controller`, not among the sources) treats an already-exists
error as success (idempotent creation) and every other creation error
as a failure. -/
def quotaCreateStep (err : Option K8sError) : Except String Unit :=
  match err with
  | some e =>
    if !(IsAlreadyExists e) then .error "fail to create quota"
    else .ok ()
  | none => .ok ()

/-! Helper lemmas. -/

theorem compareResources_eq_true_iff (res1 res2 : ResMap) :
    compareResources res1 res2 = true ↔
      lookupQ res1 "cpu" ≤ lookupQ res2 "cpu" ∧
      lookupQ res1 "memory" ≤ lookupQ res2 "memory" := by
  simp [compareResources]

theorem lookupQ_cons_zero (res : ResMap) (d k : ResourceName)
    (h : res.find? (fun p => p.1 == d) = none) :
    lookupQ ((d, 0) :: res) k = lookupQ res k := by
  by_cases hk : d = k
  · subst hk
    simp [lookupQ, List.find?, h]
  · have : ((d, (0 : Int)).1 == k) = false := by
      simp [hk]
    simp [lookupQ, List.find?, this]

/-- C5: `UsedUnderDeserved` (resp. `UsedUnderAllocated`) is true iff
`used` is ≤ the bound in every tracked dimension (cpu and memory):
the comparison is conjunctive and equality counts as under. -/
theorem used_under_conjunctive_iff (σ : Store) (r : QueueInfo) :
    (UsedUnderDeserved σ r = true ↔
      ∀ d ∈ ["cpu", "memory"],
        lookupQ (readQueue σ r).status.used d ≤
          lookupQ (readQueue σ r).status.deserved d) ∧
    (UsedUnderAllocated σ r = true ↔
      ∀ d ∈ ["cpu", "memory"],
        lookupQ (readQueue σ r).status.used d ≤
          lookupQ (readQueue σ r).status.allocated d) := by
  constructor
  · rw [UsedUnderDeserved, compareResources_eq_true_iff]
    simp [List.forall_mem_cons]
  · rw [UsedUnderAllocated, compareResources_eq_true_iff]
    simp [List.forall_mem_cons]

/-- C7: a dimension absent from one vector — whether or not the other
vector carries it — is read as the zero quantity, so `compareResources`
behaves as if the absent entry were an explicit zero. -/
theorem missing_dimension_zero (res1 res2 : ResMap) (d : ResourceName) :
    (res1.find? (fun p => p.1 == d) = none →
      compareResources res1 res2 = compareResources ((d, 0) :: res1) res2) ∧
    (res2.find? (fun p => p.1 == d) = none →
      compareResources res1 res2 = compareResources res1 ((d, 0) :: res2)) := by
  constructor
  · intro h1
    unfold compareResources
    rw [lookupQ_cons_zero res1 d _ h1, lookupQ_cons_zero res1 d _ h1]
  · intro h2
    unfold compareResources
    rw [lookupQ_cons_zero res2 d _ h2, lookupQ_cons_zero res2 d _ h2]

theorem missing_dimension_zero_witness :
    ([( ("cpu" : ResourceName), (1 : Int))].find? (fun p => p.1 == "memory") = none) ∧
    compareResources [("cpu", 1)] [("cpu", 2), ("memory", 7)] =
      compareResources [("memory", 0), ("cpu", 1)] [("cpu", 2), ("memory", 7)] ∧
    compareResources [("cpu", 2), ("memory", 7)] [("cpu", 1)] =
      compareResources [("cpu", 2), ("memory", 7)] [("memory", 0), ("cpu", 1)] :=
  ⟨by decide,
    (missing_dimension_zero [("cpu", 1)] [("cpu", 2), ("memory", 7)] "memory").1
      (by decide),
    (missing_dimension_zero [("cpu", 2), ("memory", 7)] [("cpu", 1)] "memory").2
      (by decide)⟩

/-- C9: an already-exists error on quota or queue-CRD creation is
treated as success; every other creation error is a failure. -/
theorem already_exists_idempotent (err : Option K8sError) :
    (crdCreateStep err = Except.ok () ↔
      err = none ∨ err = some K8sError.alreadyExists) ∧
    (quotaCreateStep err = Except.ok () ↔
      err = none ∨ err = some K8sError.alreadyExists) := by
  cases err with
  | none => simp [crdCreateStep, quotaCreateStep]
  | some e =>
    cases e <;> simp [crdCreateStep, quotaCreateStep, IsAlreadyExists]

/-- C10: the result of `compareResources` — and therefore of
`UsedUnderDeserved` and `UsedUnderAllocated` — depends only on the
`cpu` and `memory` entries of its inputs; excess usage in any other
dimension is never detected. -/
theorem compare_depends_only_cpu_memory (res1 res1' res2 res2' : ResMap)
    (h1 : lookupQ res1 "cpu" = lookupQ res1' "cpu")
    (h2 : lookupQ res1 "memory" = lookupQ res1' "memory")
    (h3 : lookupQ res2 "cpu" = lookupQ res2' "cpu")
    (h4 : lookupQ res2 "memory" = lookupQ res2' "memory") :
    compareResources res1 res2 = compareResources res1' res2' ∧
    (∀ (σ σ' : Store) (r r' : QueueInfo),
      (readQueue σ r).status.used = res1 →
      (readQueue σ' r').status.used = res1' →
      (readQueue σ r).status.deserved = res2 →
      (readQueue σ' r').status.deserved = res2' →
      UsedUnderDeserved σ r = UsedUnderDeserved σ' r') ∧
    (∀ (σ σ' : Store) (r r' : QueueInfo),
      (readQueue σ r).status.used = res1 →
      (readQueue σ' r').status.used = res1' →
      (readQueue σ r).status.allocated = res2 →
      (readQueue σ' r').status.allocated = res2' →
      UsedUnderAllocated σ r = UsedUnderAllocated σ' r') := by
  have hc : compareResources res1 res2 = compareResources res1' res2' := by
    unfold compareResources
    rw [h1, h2, h3, h4]
  refine ⟨hc, ?_, ?_⟩
  · intro σ σ' r r' e1 e2 e3 e4
    rw [UsedUnderDeserved, UsedUnderDeserved, e1, e2, e3, e4, hc]
  · intro σ σ' r r' e1 e2 e3 e4
    rw [UsedUnderAllocated, UsedUnderAllocated, e1, e2, e3, e4, hc]

theorem compare_depends_only_cpu_memory_witness :
    compareResources [("cpu", 1), ("gpu", 100)] [("cpu", 2)] =
      compareResources [("cpu", 1)] [("cpu", 2)] :=
  (compare_depends_only_cpu_memory
    [("cpu", 1), ("gpu", 100)] [("cpu", 1)] [("cpu", 2)] [("cpu", 2)]
    (by decide) (by decide) (by decide) (by decide)).1

/-- C3: the Allocation Policy computes, per dimension,
`deserved[q] = floor(cap[dim] * weight[q] / sum of weights)`; with
weights 1 and 2 over 15 CPU the deserved shares are 5 and 10. -/
theorem proportional_share_formula (qs : List (String × Nat)) (cap : Res)
    (n : String) (w : Nat) (hmem : (n, w) ∈ qs) :
    ((n, (⟨cap.cpu * w / sumWeights qs, cap.mem * w / sumWeights qs⟩ : Res)) ∈
      proportionCompute qs cap) ∧
    proportionCompute [("queue01", 1), ("queue02", 2)] ⟨15, 15⟩ =
      [("queue01", ⟨5, 5⟩), ("queue02", ⟨10, 10⟩)] := by
  refine ⟨?_, by decide⟩
  have := List.mem_map_of_mem
    (fun q : String × Nat =>
      (q.1, (⟨cap.cpu * q.2 / sumWeights qs, cap.mem * q.2 / sumWeights qs⟩ : Res)))
    hmem
  simpa [proportionCompute] using this

theorem proportional_share_formula_witness :
    (("queue01", 1) ∈ [("queue01", 1), ("queue02", 2)]) ∧
    ("queue01", (⟨5, 5⟩ : Res)) ∈
      proportionCompute [("queue01", 1), ("queue02", 2)] ⟨15, 15⟩ :=
  ⟨by decide,
    by simpa using
      (proportional_share_formula [("queue01", 1), ("queue02", 2)] ⟨15, 15⟩
        "queue01" 1 (by decide)).1⟩

/-- C2: scenario C — queues of weights 1, 2, 2 over 15 CPU (15 Gi
memory), queue A running 5 one-CPU workloads and queue B running 8:
deserved shares are 3, 6, 6; preemption evicts exactly 2 workloads
from A, 2 from B, none from C; final running counts are 3 and 6. -/
theorem scenario_c_preemption :
    proportionCompute [("queue01", 1), ("queue02", 2), ("queue03", 2)] ⟨15, 15⟩ =
      [("queue01", ⟨3, 3⟩), ("queue02", ⟨6, 6⟩), ("queue03", ⟨6, 6⟩)] ∧
    reconcilePreemption ⟨15, 15⟩
      [⟨"queue01", 1, List.replicate 5 ⟨1, 1⟩⟩,
       ⟨"queue02", 2, List.replicate 8 ⟨1, 1⟩⟩,
       ⟨"queue03", 2, []⟩] =
      [("queue01", 2, 3), ("queue02", 2, 6), ("queue03", 0, 0)] := by
  constructor
  · decide
  · decide

/-- C6: scenario B — queue A at exactly its 5-CPU deserved cap and
queue B at 8 of 10: equality counts as under, no eviction happens, and
all 13 workloads remain running. -/
theorem scenario_b_no_preemption :
    underB ⟨5, 5⟩ ⟨5, 5⟩ = true ∧
    reconcilePreemption ⟨15, 15⟩
      [⟨"queue01", 1, List.replicate 5 ⟨1, 1⟩⟩,
       ⟨"queue02", 2, List.replicate 8 ⟨1, 1⟩⟩] =
      [("queue01", 0, 5), ("queue02", 0, 8)] := by
  constructor
  · decide
  · decide

theorem div_add_div_le (a b c : Nat) : a / c + b / c ≤ (a + b) / c := by
  rcases Nat.eq_zero_or_pos c with hc | hc
  · subst hc; simp
  · rw [Nat.le_div_iff_mul_le hc, Nat.add_mul]
    exact Nat.add_le_add (Nat.div_mul_le_self a c) (Nat.div_mul_le_self b c)

theorem sum_map_div_le (l : List Nat) (c w : Nat) :
    (l.map (fun x => c * x / w)).sum ≤ c * l.sum / w := by
  induction l with
  | nil => simp
  | cons x t ih =>
    simp only [List.map_cons, List.sum_cons]
    calc c * x / w + (t.map (fun x => c * x / w)).sum
        ≤ c * x / w + c * t.sum / w := Nat.add_le_add_left ih _
      _ ≤ (c * x + c * t.sum) / w := div_add_div_le _ _ _
      _ = c * (x + t.sum) / w := by rw [Nat.mul_add]

theorem dim_sum_le (ws : List Nat) (c : Nat) :
    (ws.map (fun x => c * x / ws.sum)).sum ≤ c := by
  rcases Nat.eq_zero_or_pos ws.sum with h | h
  · calc (ws.map (fun x => c * x / ws.sum)).sum
        ≤ c * ws.sum / ws.sum := sum_map_div_le ws c ws.sum
      _ ≤ c := by rw [h]; simp
  · calc (ws.map (fun x => c * x / ws.sum)).sum
        ≤ c * ws.sum / ws.sum := sum_map_div_le ws c ws.sum
      _ = c := by rw [Nat.mul_comm]; exact Nat.mul_div_cancel_left c h

/-- C4: for every set of live queues with positive weights and every
total capacity, the deserved shares computed by the Allocation Policy
sum to at most the total capacity, in each dimension. -/
theorem deserved_sum_le_capacity (qs : List (String × Nat)) (cap : Res)
    (hpos : ∀ q ∈ qs, 0 < q.2) :
    ((proportionCompute qs cap).map (fun p => p.2.cpu)).sum ≤ cap.cpu ∧
    ((proportionCompute qs cap).map (fun p => p.2.mem)).sum ≤ cap.mem := by
  have hcpu : (proportionCompute qs cap).map (fun p => p.2.cpu)
      = (qs.map Prod.snd).map (fun x => cap.cpu * x / sumWeights qs) := by
    simp [proportionCompute, Function.comp]
  have hmem : (proportionCompute qs cap).map (fun p => p.2.mem)
      = (qs.map Prod.snd).map (fun x => cap.mem * x / sumWeights qs) := by
    simp [proportionCompute, Function.comp]
  rw [hcpu, hmem]
  exact ⟨dim_sum_le (qs.map Prod.snd) cap.cpu, dim_sum_le (qs.map Prod.snd) cap.mem⟩

theorem deserved_sum_le_capacity_witness :
    (∀ q ∈ [("queue01", 1), ("queue02", 2)], 0 < q.2) ∧
    ((proportionCompute [("queue01", 1), ("queue02", 2)] ⟨15, 15⟩).map
      (fun p => p.2.cpu)).sum ≤ 15 :=
  ⟨by decide,
    (deserved_sum_le_capacity [("queue01", 1), ("queue02", 2)] ⟨15, 15⟩ (by decide)).1⟩

/-- C8: adding one queue of positive weight to a set of live queues
with positive weights never increases any existing queue's deserved
share in any dimension. -/
theorem adding_queue_monotone (qs : List (String × Nat)) (newq : String × Nat)
    (cap : Res) (q : String × Nat)
    (hpos : ∀ p ∈ qs, 0 < p.2) (hnew : 0 < newq.2) (hmem : q ∈ qs) :
    ((q.1, (⟨cap.cpu * q.2 / sumWeights (qs ++ [newq]),
            cap.mem * q.2 / sumWeights (qs ++ [newq])⟩ : Res)) ∈
      proportionCompute (qs ++ [newq]) cap) ∧
    ((q.1, (⟨cap.cpu * q.2 / sumWeights qs,
            cap.mem * q.2 / sumWeights qs⟩ : Res)) ∈
      proportionCompute qs cap) ∧
    cap.cpu * q.2 / sumWeights (qs ++ [newq]) ≤ cap.cpu * q.2 / sumWeights qs ∧
    cap.mem * q.2 / sumWeights (qs ++ [newq]) ≤ cap.mem * q.2 / sumWeights qs := by
  have hWpos : 0 < sumWeights qs :=
    lt_of_lt_of_le (hpos q hmem)
      (List.le_sum_of_mem (List.mem_map_of_mem Prod.snd hmem))
  have hle : sumWeights qs ≤ sumWeights (qs ++ [newq]) := by
    simp [sumWeights]
  refine ⟨?_, ?_, Nat.div_le_div_left hle hWpos, Nat.div_le_div_left hle hWpos⟩
  · have := List.mem_map_of_mem
      (fun p : String × Nat =>
        (p.1, (⟨cap.cpu * p.2 / sumWeights (qs ++ [newq]),
               cap.mem * p.2 / sumWeights (qs ++ [newq])⟩ : Res)))
      (List.mem_append_left [newq] hmem)
    simpa [proportionCompute] using this
  · have := List.mem_map_of_mem
      (fun p : String × Nat =>
        (p.1, (⟨cap.cpu * p.2 / sumWeights qs,
               cap.mem * p.2 / sumWeights qs⟩ : Res)))
      hmem
    simpa [proportionCompute] using this

theorem adding_queue_monotone_witness :
    (∀ p ∈ [("queue01", 1), ("queue02", 2)], 0 < p.2) ∧ 0 < 2 ∧
    (("queue01", 1) ∈ [("queue01", 1), ("queue02", 2)]) ∧
    15 * 1 / sumWeights ([("queue01", 1), ("queue02", 2)] ++ [("queue03", 2)]) ≤
      15 * 1 / sumWeights [("queue01", 1), ("queue02", 2)] :=
  ⟨by decide, by decide, by decide,
    (adding_queue_monotone [("queue01", 1), ("queue02", 2)] ("queue03", 2)
      ⟨15, 15⟩ ("queue01", 1) (by decide) (by decide) (by decide)).2.2.1⟩

/-- A one-queue store: one queue object at index 0, an empty pod table
at index 0. -/
def c1Store : Store :=
  ⟨fun _ => default, fun _ => [], 1⟩

/-- The `QueueInfo` referring into `c1Store`. -/
def c1Info : QueueInfo :=
  ⟨"queue01", 0, 0⟩

/-- A queue value used to mutate the heap in the C1 witness. -/
def c1Queue : Queue :=
  ⟨3, ⟨[("cpu", 5)], [], []⟩⟩

/-- C1 fails as stated: after `Clone`, inserting a pod into the
original's `Pods` table is observable through the clone, because
`Clone` assigns `Pods: r.Pods` — the same map reference — instead of
copying the table. -/
theorem clone_pods_mutation_visible :
    readPods (writePods (Clone c1Store c1Info).1 c1Info.podsRef [("pod01", "v1")])
        (Clone c1Store c1Info).2 ≠
      readPods (Clone c1Store c1Info).1 (Clone c1Store c1Info).2 := by
  decide

/-- C1 amended: `Clone` copies the name and deep-copies the referenced
queue object — mutating the original's queue is not observable through
the clone and mutating the clone's queue is not observable through the
original — but the `Pods` membership table is shared, so a pod-table
mutation through the original is observed in full through the clone. -/
theorem clone_deep_copies_queue_shares_pods (σ : Store) (r : QueueInfo)
    (h : r.queueRef < σ.nQueues) :
    (Clone σ r).2.name = r.name ∧
    readQueue (Clone σ r).1 (Clone σ r).2 = readQueue σ r ∧
    (∀ q' : Queue,
      readQueue (writeQueue (Clone σ r).1 r.queueRef q') (Clone σ r).2 =
        readQueue (Clone σ r).1 (Clone σ r).2) ∧
    (∀ q' : Queue,
      readQueue (writeQueue (Clone σ r).1 (Clone σ r).2.queueRef q') r =
        readQueue (Clone σ r).1 r) ∧
    (Clone σ r).2.podsRef = r.podsRef ∧
    (∀ m : PodsMap,
      readPods (writePods (Clone σ r).1 r.podsRef m) (Clone σ r).2 = m) := by
  have hne : r.queueRef ≠ σ.nQueues := Nat.ne_of_lt h
  refine ⟨rfl, ?_, ?_, ?_, rfl, ?_⟩
  · simp [Clone, readQueue, Function.update_same]
  · intro q'
    simp [Clone, readQueue, writeQueue,
      Function.update_noteq (Ne.symm hne), Function.update_same]
  · intro q'
    simp [Clone, readQueue, writeQueue,
      Function.update_noteq hne, Function.update_noteq (Ne.symm hne)]
  · intro m
    simp [Clone, readPods, writePods, Function.update_same]

theorem clone_deep_copies_queue_shares_pods_witness :
    c1Info.queueRef < c1Store.nQueues ∧
    readQueue (writeQueue (Clone c1Store c1Info).1 c1Info.queueRef c1Queue)
        (Clone c1Store c1Info).2 =
      readQueue (Clone c1Store c1Info).1 (Clone c1Store c1Info).2 ∧
    (Clone c1Store c1Info).2.podsRef = c1Info.podsRef :=
  ⟨by decide,
    (clone_deep_copies_queue_shares_pods c1Store c1Info (by decide)).2.2.1 c1Queue,
    (clone_deep_copies_queue_shares_pods c1Store c1Info (by decide)).2.2.2.2.1⟩

end KubeArbitrator
